import Mathlib

/- Verification development for the AccChecker repository.

   The data model and the operations below are shallow embeddings of the
   TypeScript source under src/frontend (Pinia store `checker.ts`, the
   ReportView and HomeView components, and the Electron main-process IPC
   handler).  Numbers are modelled as rationals, JS arrays as lists, and
   JS objects as structures.  Where a claim depends on backend code that
   is not part of the repository snapshot (the Python scoring engine),
   the corresponding definition is modelled from the spec and marked as
   such in its doc comment. -/

/-- Issue severity, the four values of the TS union type in checker.ts. -/
inductive Severity where
  | low
  | medium
  | high
  | critical
deriving DecidableEq

/-- The TS severity values are strings; this is the string each variant denotes. -/
def severityString : Severity → String
  | Severity.low => "low"
  | Severity.medium => "medium"
  | Severity.high => "high"
  | Severity.critical => "critical"

/-- AccessibilityIssue interface from src/frontend/src/renderer/stores/checker.ts. -/
structure AccessibilityIssue where
  type : String
  severity : Severity
  message : String
  description : String
  element : Option String
  line_number : Option Nat
  recommendation : String
  wcag_reference : Option String
deriving DecidableEq

/-- CategoryScore interface from checker.ts. -/
structure CategoryScore where
  category : String
  score : ℚ
  max_score : ℚ
  issues_count : Nat
  passed_checks : Nat
  total_checks : Nat
deriving DecidableEq

/-- CheckResult interface from checker.ts.  The TS `category_scores` is a
    string-keyed record, modelled as an association list; `summary` is a
    string-keyed record of which the code reads `overall_grade`, modelled as a
    string association list. -/
structure CheckResult where
  url : String
  total_score : ℚ
  category_scores : List (String × CategoryScore)
  issues : List AccessibilityIssue
  summary : List (String × String)
  checked_at : String
  check_duration : ℚ
deriving DecidableEq

/-- CheckOptions interface from checker.ts: five per-category enable flags
    plus include_screenshots and wait_time. -/
structure CheckOptions where
  enable_aria_check : Bool
  enable_semantic_check : Bool
  enable_image_check : Bool
  enable_media_check : Bool
  enable_visual_check : Bool
  include_screenshots : Bool
  wait_time : ℚ
deriving DecidableEq

/-- A TS `Partial` of CheckOptions: every field optional, as in the
    `options?: Partial(CheckOptions)` parameter of startCheck. -/
structure CheckOptionsPatch where
  enable_aria_check : Option Bool
  enable_semantic_check : Option Bool
  enable_image_check : Option Bool
  enable_media_check : Option Bool
  enable_visual_check : Option Bool
  include_screenshots : Option Bool
  wait_time : Option ℚ

/-- The per-category enable flags of a CheckOptions value, paired with their
    field names, in declaration order (include_screenshots and wait_time are
    not category flags). -/
def categoryFlags (o : CheckOptions) : List (String × Bool) :=
  [("enable_aria_check", o.enable_aria_check),
   ("enable_semantic_check", o.enable_semantic_check),
   ("enable_image_check", o.enable_image_check),
   ("enable_media_check", o.enable_media_check),
   ("enable_visual_check", o.enable_visual_check)]

/-- defaultOptions ref from checker.ts. -/
def defaultOptions : CheckOptions :=
  { enable_aria_check := true
    enable_semantic_check := true
    enable_image_check := true
    enable_media_check := true
    enable_visual_check := true
    include_screenshots := false
    wait_time := 5 }

/-- The object-spread merge in startCheck (checker.ts line 74):
    checkOptions is a fresh object taking each field from the caller's
    overrides when present, from the defaults otherwise; neither input
    object is written to. -/
def mergeOptions (d : CheckOptions) (p : CheckOptionsPatch) : CheckOptions :=
  { enable_aria_check := p.enable_aria_check.getD d.enable_aria_check
    enable_semantic_check := p.enable_semantic_check.getD d.enable_semantic_check
    enable_image_check := p.enable_image_check.getD d.enable_image_check
    enable_media_check := p.enable_media_check.getD d.enable_media_check
    enable_visual_check := p.enable_visual_check.getD d.enable_visual_check
    include_screenshots := p.include_screenshots.getD d.include_screenshots
    wait_time := p.wait_time.getD d.wait_time }

/-- addResult from checker.ts: unshift the new result, then keep only the
    first 10 entries when the list exceeds 10. -/
def addResult (r : CheckResult) (results : List CheckResult) : List CheckResult :=
  let results2 := r :: results
  if results2.length > 10 then results2.take 10 else results2

/-- latestResult computed getter from checker.ts:
    length > 0 ? checkResults[0] : null. -/
def latestResult (results : List CheckResult) : Option CheckResult :=
  if h : 0 < results.length then some (results.get ⟨0, h⟩) else none

/-- getResultById from checker.ts: Array.prototype.find on
    checked_at === id, with undefined coerced to null. -/
def getResultById (id : String) (results : List CheckResult) : Option CheckResult :=
  results.find? (fun r => r.checked_at == id)

/-- Spec-side restatement for C10: the first stored result whose checked_at
    equals the id, or none when no stored result has that checked_at. -/
def firstResultWithCheckedAt (id : String) : List CheckResult → Option CheckResult
  | [] => none
  | r :: rest => if r.checked_at = id then some r else firstResultWithCheckedAt id rest

/-- exportResult from checker.ts.  The switch dispatches the unmodified
    result to one IPC export channel per format; the value returned here is
    the (channel, payload) pair of the single ipcRenderer.invoke call, and
    the default branch throws before any channel is invoked. -/
def exportResult (result : CheckResult) (format : String) :
    Except String (String × CheckResult) :=
  if format = "json" then Except.ok ("export-json", result)
  else if format = "html" then Except.ok ("export-html", result)
  else if format = "pdf" then Except.ok ("export-pdf", result)
  else Except.error "지원하지 않는 내보내기 형식입니다."

/-- The severityOrder object inside the filteredIssues comparator in
    ReportView.vue: critical 0, high 1, medium 2, low 3. -/
def severityOrderJS : Severity → Nat
  | Severity.critical => 0
  | Severity.high => 1
  | Severity.medium => 2
  | Severity.low => 3

/-- Stable insertion of one issue into an already sorted list, placing the
    new element before the first element of strictly larger comparator
    value.  Together with sortIssues this models Array.prototype.sort with
    the comparator severityOrder[a.severity] - severityOrder[b.severity]
    (stable, as required of JS engines). -/
def insertIssue (i : AccessibilityIssue) : List AccessibilityIssue → List AccessibilityIssue
  | [] => [i]
  | j :: rest =>
    if severityOrderJS j.severity < severityOrderJS i.severity then j :: insertIssue i rest
    else i :: j :: rest

/-- Stable sort by the ReportView severity comparator. -/
def sortIssues : List AccessibilityIssue → List AccessibilityIssue
  | [] => []
  | i :: rest => insertIssue i (sortIssues rest)

/-- The filteredIssues computed property of ReportView.vue, including its
    effect on the stored CheckResult.  JS semantics embedded here: a falsy
    (empty) select value skips its filter; Array.prototype.filter allocates
    a fresh array while Array.prototype.sort reorders its receiver in
    place, so when both filters are skipped the receiver of the sort is the
    CheckResult's own issues array.  Returns the list the view displays
    together with the state of the stored CheckResult after the call. -/
def filteredIssuesRun (selectedSeverity selectedCategory : String)
    (result : CheckResult) : List AccessibilityIssue × CheckResult :=
  let issues1 := if selectedSeverity = "" then result.issues
    else result.issues.filter (fun i => severityString i.severity = selectedSeverity)
  let issues2 := if selectedCategory = "" then issues1
    else issues1.filter (fun i => i.type = selectedCategory)
  let sorted := sortIssues issues2
  if selectedSeverity = "" ∧ selectedCategory = "" then
    (sorted, { result with issues := sorted })
  else
    (sorted, result)

/-- getScoreColor from ReportView.vue. -/
def getScoreColorReport (score : ℚ) : String :=
  if 90 ≤ score then "text-green-600"
  else if 80 ≤ score then "text-blue-600"
  else if 70 ≤ score then "text-yellow-600"
  else if 60 ≤ score then "text-orange-600"
  else "text-red-600"

/-- getScoreBarColor from ReportView.vue. -/
def getScoreBarColor (score : ℚ) : String :=
  if 90 ≤ score then "bg-green-500"
  else if 80 ≤ score then "bg-blue-500"
  else if 70 ≤ score then "bg-yellow-500"
  else if 60 ≤ score then "bg-orange-500"
  else "bg-red-500"

/-- getScoreColor from the HomeView component (src/unnamed/part_002), an
    independent call site with the same threshold ladder. -/
def getScoreColorHome (score : ℚ) : String :=
  if 90 ≤ score then "text-green-600"
  else if 80 ≤ score then "text-blue-600"
  else if 70 ≤ score then "text-yellow-600"
  else if 60 ≤ score then "text-orange-600"
  else "text-red-600"

/-- The grade threshold ladder as one table, score bands 0..4 in descending
    order of threshold: band 0 is at least 90, band 1 at least 80, band 2 at
    least 70, band 3 at least 60, band 4 everything below. -/
def scoreBand (s : ℚ) : Nat :=
  if 90 ≤ s then 0
  else if 80 ≤ s then 1
  else if 70 ≤ s then 2
  else if 60 ≤ s then 3
  else 4

/-- Modelled from the spec: the grade-threshold configuration table of the
    Scoring Engine (§4.3), whose implementation is not under src/:
    at least 90 is A, at least 80 is B, at least 70 is C, at least 60 is D. -/
def gradeThresholds : List (ℚ × String) :=
  [(90, "A"), (80, "B"), (70, "C"), (60, "D")]

/-- Modelled from the spec: reading a grade off a threshold table — the first
    row whose threshold the score reaches wins, and a score below every
    threshold is an F. -/
def gradeFromTable : List (ℚ × String) → ℚ → String
  | [], _ => "F"
  | (t, g) :: rest, s => if t ≤ s then g else gradeFromTable rest s

/-- The overall grade of a score, from the single configuration table. -/
def gradeOf (s : ℚ) : String := gradeFromTable gradeThresholds s

/-- Category weight table from the README scoring section (src/unnamed/part_000):
    ARIA 25%, Semantic 20%, Image 15%, Media 15%, Visual 10%, Keyboard 15%. -/
def categoryWeights : List (String × ℚ) :=
  [("aria", 25/100), ("semantic", 20/100), ("image", 15/100),
   ("media", 15/100), ("visual", 10/100), ("keyboard", 15/100)]

/-- Modelled from the spec: weight normalization over the enabled categories
    (Checker Registry / Scoring Engine, not under src/) — each enabled
    category's weight divided by the total enabled weight. -/
def normalizedWeights (enabled : List (String × ℚ)) : List (String × ℚ) :=
  let total := (enabled.map Prod.snd).sum
  enabled.map (fun w => (w.1, w.2 / total))

/-- Modelled from the spec: the severity penalty bands of the README
    (critical 10 to 20, high 5 to 10, medium 2 to 5, low 1 to 2) with the
    deterministic mid-point value of each band that §4.3 prescribes when a
    checker supplies no explicit magnitude. -/
def severityPenalty : Severity → ℚ
  | Severity.critical => 15
  | Severity.high => 15/2
  | Severity.medium => 7/2
  | Severity.low => 3/2

/-- Total penalty of a category's issue list. -/
def penaltySum (issues : List AccessibilityIssue) : ℚ :=
  (issues.map (fun i => severityPenalty i.severity)).sum

/-- Modelled from the spec: a category score starts at 100, subtracts one
    severity-scaled penalty per issue and is clamped at 0 (§4.3). -/
def categoryScoreOf (issues : List AccessibilityIssue) : ℚ :=
  max 0 (100 - penaltySum issues)

/-- Round a rational to one decimal place. -/
def roundTo1 (x : ℚ) : ℚ := (round (10 * x) : ℤ) / 10

/-- Weighted sum of (category score, normalized weight) pairs. -/
def weightedSum (cats : List (ℚ × ℚ)) : ℚ :=
  (cats.map (fun p => p.1 * p.2)).sum

/-- Modelled from the spec: total_score is the weighted sum of the present
    category scores, rounded to one decimal and clamped to the interval
    from 0 to 100 (§3 invariants, §4.3). -/
def totalScore (cats : List (ℚ × ℚ)) : ℚ :=
  min 100 (max 0 (roundTo1 (weightedSum cats)))

/-- Color class table of getScoreColor, indexed by score band. -/
def scoreColorTable : List String :=
  ["text-green-600", "text-blue-600", "text-yellow-600", "text-orange-600", "text-red-600"]

/-- Color class table of getScoreBarColor, indexed by score band. -/
def scoreBarColorTable : List String :=
  ["bg-green-500", "bg-blue-500", "bg-yellow-500", "bg-orange-500", "bg-red-500"]

/-- Grade letters, indexed by score band. -/
def gradeLetters : List String := ["A", "B", "C", "D", "F"]

/-- Outcome of the backend call made by the check-accessibility IPC handler
    (src/unnamed/part_004): the axios post either yields a CheckResult or
    fails with an error message. -/
inductive BackendOutcome where
  | success (result : CheckResult)
  | failure (message : String)

/-- What a JS Error thrown across the IPC boundary exposes to the caller:
    its name, its message and — for comparison against the spec's error
    object — an optional code property, which a plain Error does not set. -/
structure ThrownError where
  name : String
  message : String
  code : Option String
deriving DecidableEq

/-- Outcome of one check-accessibility IPC request as its caller sees it. -/
inductive HandlerOutcome where
  | ok (result : CheckResult)
  | thrown (error : ThrownError)
deriving DecidableEq

/-- The check-accessibility IPC handler from src/unnamed/part_004: on
    success it returns response.data unchanged; on any failure it throws
    new Error built from the prefix plus the underlying message — a plain
    Error with no code property. -/
def checkAccessibilityHandler : BackendOutcome → HandlerOutcome
  | BackendOutcome.success r => HandlerOutcome.ok r
  | BackendOutcome.failure msg =>
      HandlerOutcome.thrown
        { name := "Error", message := "접근성 검사 실패: " ++ msg, code := none }

/-- The four stable error codes of the spec's inbound service interface. -/
def stableCodes : List String :=
  ["invalid_url", "render_timeout", "navigation_error", "internal_error"]

/-- A sample low-severity image issue, listed first. -/
def issueLow : AccessibilityIssue :=
  { type := "image"
    severity := Severity.low
    message := "이미지 alt 텍스트가 빈 문자열입니다"
    description := "장식용이 아닌 이미지의 alt가 비어 있습니다"
    element := none
    line_number := some 12
    recommendation := "의미 있는 alt 텍스트를 제공하세요"
    wcag_reference := some "WCAG 1.1.1" }

/-- A sample critical ARIA issue, listed second. -/
def issueCritical : AccessibilityIssue :=
  { type := "aria"
    severity := Severity.critical
    message := "role 값이 유효하지 않습니다"
    description := "인식되지 않는 role 값이 사용되었습니다"
    element := none
    line_number := some 3
    recommendation := "유효한 role 값을 사용하세요"
    wcag_reference := some "WCAG 4.1.2" }

/-- A sample stored CheckResult whose issues are ordered low then critical. -/
def sampleResult : CheckResult :=
  { url := "https://example.com"
    total_score := 81
    category_scores := []
    issues := [issueLow, issueCritical]
    summary := [("overall_grade", "B")]
    checked_at := "2024-05-01T10:00:00"
    check_duration := 3 }

/-- Concrete (category score, normalized weight) pairs used to witness the
    total-score theorem. -/
def witnessCats : List (ℚ × ℚ) := [(100, 1/4), (80, 1/4), (90, 1/2)]

/-- The places in the repository that derive a band from a score:
    getScoreColor and getScoreBarColor in ReportView.vue and getScoreColor
    in the HomeView component (src/unnamed/part_002). -/
def scoreBandCallSites : List String :=
  ["ReportView.getScoreColor", "ReportView.getScoreBarColor", "HomeView.getScoreColor"]

/-- The threshold literals written inline in the body of each band-deriving
    call site.  getScoreColor in ReportView.vue (lines 380 to 386),
    getScoreBarColor in ReportView.vue (lines 388 to 394) and getScoreColor
    in the HomeView component (src/unnamed/part_002 lines 266 to 272) each
    spell out their own copy of the four literals 90, 80, 70 and 60; the
    repository contains no shared threshold table these call sites could
    read, so no call site has an empty inline list. -/
def inlineThresholdsAt : String → List ℚ
  | "ReportView.getScoreColor" => [90, 80, 70, 60]
  | "ReportView.getScoreBarColor" => [90, 80, 70, 60]
  | "HomeView.getScoreColor" => [90, 80, 70, 60]
  | _ => []

lemma severityPenalty_nonneg (s : Severity) : 0 ≤ severityPenalty s := by
  cases s <;> norm_num [severityPenalty]

lemma penaltySum_nonneg (issues : List AccessibilityIssue) : 0 ≤ penaltySum issues := by
  refine List.sum_nonneg ?_
  intro x hx
  obtain ⟨i, _, rfl⟩ := List.mem_map.mp hx
  exact severityPenalty_nonneg i.severity

lemma getResultById_eq_first (id : String) (l : List CheckResult) :
    getResultById id l = firstResultWithCheckedAt id l := by
  induction l with
  | nil => rfl
  | cons r rest ih =>
    by_cases h : r.checked_at = id
    · simp [getResultById, firstResultWithCheckedAt, List.find?, h]
    · simp only [getResultById, firstResultWithCheckedAt, List.find?] at ih ⊢
      rw [if_neg h]
      have hb : (r.checked_at == id) = false := by
        simp [h]
      rw [hb]
      exact ih

lemma first_eq_none_iff (id : String) (l : List CheckResult) :
    firstResultWithCheckedAt id l = none ↔ ∀ r ∈ l, r.checked_at ≠ id := by
  induction l with
  | nil => simp [firstResultWithCheckedAt]
  | cons r rest ih =>
    by_cases h : r.checked_at = id
    · simp [firstResultWithCheckedAt, h]
    · simp [firstResultWithCheckedAt, h, ih]

lemma first_some_checked_at (id : String) (l : List CheckResult) (r : CheckResult)
    (h : firstResultWithCheckedAt id l = some r) : r.checked_at = id := by
  induction l with
  | nil => simp [firstResultWithCheckedAt] at h
  | cons a rest ih =>
    by_cases ha : a.checked_at = id
    · simp only [firstResultWithCheckedAt, if_pos ha] at h
      cases h
      exact ha
    · simp only [firstResultWithCheckedAt, if_neg ha] at h
      exact ih h

/-- C9: after every call to addResult the stored history holds at most 10
    results, the result passed to the most recent call sits at index 0, and
    latestResult returns that head result, or none on an empty history. -/
theorem C9_history_bounded_newest_first (r : CheckResult) (l : List CheckResult) :
    (addResult r l).length ≤ 10 ∧
    (addResult r l).head? = some r ∧
    latestResult (addResult r l) = some r ∧
    latestResult ([] : List CheckResult) = none := by
  have hlatest : ∀ (a : CheckResult) (m : List CheckResult), latestResult (a :: m) = some a := by
    intro a m
    have h : 0 < (a :: m).length := by simp
    unfold latestResult
    rw [dif_pos h]
    rfl
  unfold addResult
  by_cases h : (r :: l).length > 10
  · rw [if_pos h]
    have htake : (r :: l).take 10 = r :: l.take 9 := rfl
    refine ⟨?_, ?_, ?_, rfl⟩
    · rw [List.length_take]
      exact min_le_left _ _
    · rw [htake]
      rfl
    · rw [htake]
      exact hlatest r (l.take 9)
  · rw [if_neg h]
    have hlen : (r :: l).length ≤ 10 := by omega
    exact ⟨hlen, rfl, hlatest r l, rfl⟩

/-- C10: getResultById returns the first stored result whose checked_at
    equals the requested id, none when no stored result has that
    checked_at, and any returned result does carry the requested
    checked_at; being a pure function of the list it neither throws nor
    alters the stored history. -/
theorem C10_get_result_by_id (id : String) (l : List CheckResult) :
    getResultById id l = firstResultWithCheckedAt id l ∧
    (getResultById id l = none ↔ ∀ r ∈ l, r.checked_at ≠ id) ∧
    (∀ r, getResultById id l = some r → r.checked_at = id) := by
  have he := getResultById_eq_first id l
  refine ⟨he, ?_, ?_⟩
  · rw [he]
    exact first_eq_none_iff id l
  · intro r hr
    rw [he] at hr
    exact first_some_checked_at id l r hr

/-- C10 witness: on a concrete two-element history the lookup finds the
    stored result and its checked_at matches the id. -/
theorem C10_get_result_by_id_witness :
    sampleResult.checked_at = "2024-05-01T10:00:00" :=
  (C10_get_result_by_id "2024-05-01T10:00:00" [sampleResult]).2.2 sampleResult (by rfl)

/-- C8: exportResult dispatches exactly the formats json, html and pdf to
    the corresponding export channel with the CheckResult passed through
    unmodified, and raises the unsupported-format error, invoking no
    channel, for every other format string. -/
theorem C8_export_formats (r : CheckResult) (format : String) :
    exportResult r "json" = Except.ok ("export-json", r) ∧
    exportResult r "html" = Except.ok ("export-html", r) ∧
    exportResult r "pdf" = Except.ok ("export-pdf", r) ∧
    (format ≠ "json" → format ≠ "html" → format ≠ "pdf" →
      exportResult r format = Except.error "지원하지 않는 내보내기 형식입니다.") := by
  refine ⟨by simp [exportResult], by simp [exportResult], by simp [exportResult], ?_⟩
  intro h1 h2 h3
  simp [exportResult, h1, h2, h3]

/-- C8 witness: a concrete unsupported format yields the error and a
    concrete supported format dispatches the unmodified result. -/
theorem C8_export_formats_witness :
    exportResult sampleResult "xml" = Except.error "지원하지 않는 내보내기 형식입니다." ∧
    exportResult sampleResult "json" = Except.ok ("export-json", sampleResult) :=
  ⟨(C8_export_formats sampleResult "xml").2.2.2 (by decide) (by decide) (by decide),
   (C8_export_formats sampleResult "xml").1⟩

/-- C6 counterexample: CheckOptions does not carry six per-category enable
    flags — it has five and none for keyboard navigation. -/
theorem C6_counterexample :
    ¬ ((categoryFlags defaultOptions).length = 6 ∧
       "enable_keyboard_check" ∈ (categoryFlags defaultOptions).map Prod.fst) := by
  decide

/-- C6 amended: CheckOptions carries exactly the five per-category enable
    flags aria, semantic, image, media and visual plus include_screenshots
    and wait_time, and the startCheck merge builds a fresh object taking
    each field from the caller's overrides when present and from the
    defaults otherwise, reading but never writing either input. -/
theorem C6_options_shape_and_merge (d : CheckOptions) (p : CheckOptionsPatch) :
    (categoryFlags d).map Prod.fst =
      ["enable_aria_check", "enable_semantic_check", "enable_image_check",
       "enable_media_check", "enable_visual_check"] ∧
    (mergeOptions d p).enable_aria_check = p.enable_aria_check.getD d.enable_aria_check ∧
    (mergeOptions d p).enable_semantic_check = p.enable_semantic_check.getD d.enable_semantic_check ∧
    (mergeOptions d p).enable_image_check = p.enable_image_check.getD d.enable_image_check ∧
    (mergeOptions d p).enable_media_check = p.enable_media_check.getD d.enable_media_check ∧
    (mergeOptions d p).enable_visual_check = p.enable_visual_check.getD d.enable_visual_check ∧
    (mergeOptions d p).include_screenshots = p.include_screenshots.getD d.include_screenshots ∧
    (mergeOptions d p).wait_time = p.wait_time.getD d.wait_time :=
  ⟨rfl, rfl, rfl, rfl, rfl, rfl, rfl, rfl⟩

/-- C2: evaluation of the code at the failing input — with no severity and
    no category filter selected, the filteredIssues computed property of
    ReportView sorts the stored CheckResult's own issues array in place,
    so the stored result's issues order changes from low-then-critical to
    critical-then-low. -/
theorem C2_mutation_bug :
    (filteredIssuesRun "" "" sampleResult).2.issues = [issueCritical, issueLow] ∧
    sampleResult.issues = [issueLow, issueCritical] ∧
    (filteredIssuesRun "" "" sampleResult).2.issues ≠ sampleResult.issues := by
  refine ⟨rfl, rfl, ?_⟩
  decide

/-- C4: a category score starts at 100, subtracts one severity-scaled
    penalty per issue whose magnitude lies in the README band for its
    severity (critical 10 to 20, high 5 to 10, medium 2 to 5, low 1 to 2),
    is clamped at 0, hence always lies in the interval from 0 to 100, and
    adding an issue never increases it. -/
theorem C4_category_score_bands (issues : List AccessibilityIssue) (i : AccessibilityIssue) :
    0 ≤ categoryScoreOf issues ∧
    categoryScoreOf issues ≤ 100 ∧
    categoryScoreOf (i :: issues) ≤ categoryScoreOf issues ∧
    10 ≤ severityPenalty Severity.critical ∧ severityPenalty Severity.critical ≤ 20 ∧
    5 ≤ severityPenalty Severity.high ∧ severityPenalty Severity.high ≤ 10 ∧
    2 ≤ severityPenalty Severity.medium ∧ severityPenalty Severity.medium ≤ 5 ∧
    1 ≤ severityPenalty Severity.low ∧ severityPenalty Severity.low ≤ 2 := by
  have hps := penaltySum_nonneg issues
  have hcons : penaltySum (i :: issues) = severityPenalty i.severity + penaltySum issues := by
    simp [penaltySum]
  refine ⟨le_max_left _ _, ?_, ?_,
    by norm_num [severityPenalty], by norm_num [severityPenalty],
    by norm_num [severityPenalty], by norm_num [severityPenalty],
    by norm_num [severityPenalty], by norm_num [severityPenalty],
    by norm_num [severityPenalty], by norm_num [severityPenalty]⟩
  · exact max_le (by norm_num) (by linarith)
  · rw [categoryScoreOf, categoryScoreOf, hcons]
    have hpen := severityPenalty_nonneg i.severity
    exact max_le_max le_rfl (by linarith)

/-- C5 counterexample: the claim requires the thresholds to be taken from
    one configuration table rather than hard-coded per call site, under
    which no band-deriving call site would carry its own inline copy of
    the ladder; but at the concrete call site getScoreColor of ReportView
    — a member of the band-deriving call sites — the four thresholds are
    written inline, so not every call site is free of inline thresholds. -/
theorem C5_counterexample :
    inlineThresholdsAt "ReportView.getScoreColor" = [90, 80, 70, 60] ∧
    "ReportView.getScoreColor" ∈ scoreBandCallSites ∧
    ¬ (∀ site ∈ scoreBandCallSites, inlineThresholdsAt site = ([] : List ℚ)) := by
  refine ⟨rfl, by decide, by decide⟩

/-- C5 amended: every place that derives a band from a score — the two
    ReportView color call sites, the home-view color call site and the
    grade read off the threshold table — bands it by one and the same
    ladder (at least 90, at least 80, at least 70, at least 60, below 60),
    but each of the three frontend call sites carries its own inline copy
    of those thresholds instead of reading one shared configuration table. -/
theorem C5_same_ladder_each_call_site (s : ℚ) :
    getScoreColorReport s = scoreColorTable.getD (scoreBand s) "" ∧
    getScoreBarColor s = scoreBarColorTable.getD (scoreBand s) "" ∧
    getScoreColorHome s = getScoreColorReport s ∧
    gradeOf s = gradeLetters.getD (scoreBand s) "" ∧
    (∀ site ∈ scoreBandCallSites, inlineThresholdsAt site = [90, 80, 70, 60]) := by
  refine ⟨?_, ?_, ?_, ?_, by decide⟩ <;>
    simp only [getScoreColorReport, getScoreBarColor, getScoreColorHome, scoreBand, gradeOf,
      gradeThresholds, gradeFromTable, scoreColorTable, scoreBarColorTable, gradeLetters] <;>
    split_ifs <;> rfl

/-- C7 counterexample: at the concrete backend failure below, the
    check-accessibility IPC handler surfaces a plain thrown Error carrying
    no code property at all, so the caller does not receive a structured
    error object whose code is one of the four stable values. -/
theorem C7_counterexample :
    ¬ ∃ e, checkAccessibilityHandler
        (BackendOutcome.failure "connect ECONNREFUSED 127.0.0.1:8000") =
          HandlerOutcome.thrown e ∧
        ∃ c, e.code = some c ∧ c ∈ stableCodes := by
  rintro ⟨e, he, c, hc, hmem⟩
  simp only [checkAccessibilityHandler, HandlerOutcome.thrown.injEq] at he
  rw [← he] at hc
  simp at hc

/-- C7 amended: a successful check request returns the backend result
    unchanged, while every failed request surfaces as a thrown plain Error
    whose message prefixes the underlying failure message and which carries
    no structured error code. -/
theorem C7_handler_surface (msg : String) (r : CheckResult) :
    checkAccessibilityHandler (BackendOutcome.success r) = HandlerOutcome.ok r ∧
    checkAccessibilityHandler (BackendOutcome.failure msg) =
      HandlerOutcome.thrown
        { name := "Error", message := "접근성 검사 실패: " ++ msg, code := none } :=
  ⟨rfl, rfl⟩

lemma map_snd_div_sum (l : List (String × ℚ)) (t : ℚ) :
    ((l.map (fun w => (w.1, w.2 / t))).map Prod.snd).sum = (l.map Prod.snd).sum / t := by
  induction l with
  | nil => simp
  | cons a rest ih =>
    simp only [List.map_cons, List.sum_cons, ih, add_div]

/-- C3 counterexample: over the empty subset of enabled categories the
    normalized weights sum to 0, not 1, so the claim fails for that subset. -/
theorem C3_counterexample :
    ¬ (((normalizedWeights ([] : List (String × ℚ))).map Prod.snd).sum = 1) := by
  simp [normalizedWeights]

/-- C3 amended: for every nonempty subset of enabled categories with
    positive weights the normalized weights sum to 1, and the default
    six-category weight table (ARIA 25, Semantic 20, Image 15, Media 15,
    Visual 10, Keyboard 15 percent) sums to 1. -/
theorem C3_normalized_weights (enabled : List (String × ℚ)) (hne : enabled ≠ [])
    (hpos : ∀ w ∈ enabled, 0 < w.2) :
    ((normalizedWeights enabled).map Prod.snd).sum = 1 ∧
    (categoryWeights.map Prod.snd).sum = 1 := by
  constructor
  · have htot : 0 < (enabled.map Prod.snd).sum := by
      refine List.sum_pos _ ?_ ?_
      · intro x hx
        obtain ⟨w, hw, rfl⟩ := List.mem_map.mp hx
        exact hpos w hw
      · simpa using hne
    simp only [normalizedWeights]
    rw [map_snd_div_sum]
    exact div_self (ne_of_gt htot)
  · norm_num [categoryWeights]

/-- C3 witness: the default weight table is a nonempty positive subset and
    its normalization sums to 1. -/
theorem C3_normalized_weights_witness :
    ((normalizedWeights categoryWeights).map Prod.snd).sum = 1 ∧
    (categoryWeights.map Prod.snd).sum = 1 :=
  C3_normalized_weights categoryWeights (by simp [categoryWeights])
    (by norm_num [categoryWeights])

lemma roundTo1_bounds (x : ℚ) (h0 : 0 ≤ x) (h100 : x ≤ 100) :
    0 ≤ roundTo1 x ∧ roundTo1 x ≤ 100 := by
  have hfloor := round_eq (10 * x)
  constructor
  · rw [roundTo1, hfloor]
    apply div_nonneg _ (by norm_num)
    have h : (0:ℤ) ≤ ⌊10 * x + 1/2⌋ := Int.floor_nonneg.mpr (by linarith)
    exact_mod_cast h
  · rw [roundTo1, hfloor]
    rw [div_le_iff₀ (by norm_num : (0:ℚ) < 10)]
    have h : ⌊10 * x + 1/2⌋ ≤ (1000:ℤ) := by
      rw [Int.floor_le_iff]
      push_cast
      linarith
    calc ((⌊10 * x + 1/2⌋ : ℤ) : ℚ) ≤ ((1000:ℤ) : ℚ) := by exact_mod_cast h
      _ = 100 * 10 := by norm_num

/-- C1: when every present category score lies between 0 and 100 and the
    normalized weights are nonnegative and sum to 1, the total score lies
    between 0 and 100 and equals the weighted sum of the present category
    scores rounded to one decimal place. -/
theorem C1_total_score (cats : List (ℚ × ℚ))
    (hs : ∀ p ∈ cats, 0 ≤ p.1 ∧ p.1 ≤ 100 ∧ 0 ≤ p.2)
    (hw : (cats.map Prod.snd).sum = 1) :
    0 ≤ totalScore cats ∧ totalScore cats ≤ 100 ∧
    totalScore cats = roundTo1 (weightedSum cats) := by
  have h0 : 0 ≤ weightedSum cats := by
    refine List.sum_nonneg ?_
    intro x hx
    obtain ⟨p, hp, rfl⟩ := List.mem_map.mp hx
    exact mul_nonneg (hs p hp).1 (hs p hp).2.2
  have h100 : weightedSum cats ≤ 100 := by
    have h1 : (cats.map fun p => p.1 * p.2).sum ≤ (cats.map fun p => 100 * p.2).sum := by
      refine List.sum_le_sum ?_
      intro p hp
      exact mul_le_mul_of_nonneg_right (hs p hp).2.1 (hs p hp).2.2
    calc weightedSum cats ≤ (cats.map fun p => 100 * p.2).sum := h1
      _ = 100 * (cats.map Prod.snd).sum := List.sum_map_mul_left cats Prod.snd 100
      _ = 100 := by rw [hw]; norm_num
  obtain ⟨hr0, hr100⟩ := roundTo1_bounds (weightedSum cats) h0 h100
  have heq : totalScore cats = roundTo1 (weightedSum cats) := by
    rw [totalScore, max_eq_right hr0, min_eq_right hr100]
  refine ⟨?_, ?_, heq⟩
  · rw [heq]
    exact hr0
  · rw [heq]
    exact hr100

/-- C1 witness: three concrete categories scored 100, 80 and 90 with
    normalized weights one quarter, one quarter and one half. -/
theorem C1_total_score_witness :
    0 ≤ totalScore witnessCats ∧ totalScore witnessCats ≤ 100 ∧
    totalScore witnessCats = roundTo1 (weightedSum witnessCats) :=
  C1_total_score witnessCats (by norm_num [witnessCats]) (by norm_num [witnessCats])
